import Mathlib

/-!
Verification of the trusttunnel-ui session lifecycle core.

Shallow embedding conventions:
* Rust `String` / `&str` values are embedded as `List Char` (abbreviated `Str`);
  `str::to_lowercase` becomes a `Char.toLower` map (the two agree on the ASCII
  text the classifier patterns are written in), `contains` / `starts_with` /
  `trim` / `find` become the explicit list functions below.
* Effectful calls (spawning commands, mutating OS proxy/DNS state, killing the
  child) are recorded in an explicit event trace (`SysEv`), and everything the
  environment decides (child exit status observed by `try_wait`, detected
  proxy/DNS backends, command success) is passed in as an `Env` value.
* `Vec::remove(0)` on the log buffer is `List.tail`, `Vec::push` is an append.
-/

set_option maxRecDepth 4000

/-- The embedding of Rust strings: a list of characters. -/
abbrev Str := List Char

/-- Apostrophe character, used in messages such as the binary-not-found hint. -/
def apos : Char := Char.ofNat 39

/-- Embedding of `str::to_lowercase` (agrees with Rust on ASCII input). -/
def lowerStr (s : Str) : Str := s.map Char.toLower

/-- Embedding of `str::starts_with`: does `hay` start with `pat`? -/
def prefAt : Str → Str → Bool
  | [], _ => true
  | _ :: _, [] => false
  | p :: ps, h :: hs => p == h && prefAt ps hs

/-- Embedding of `str::contains`: does `hay` contain `pat` as a substring? -/
def strContainsSub : Str → Str → Bool
  | [], pat => pat.isEmpty
  | c :: t, pat => prefAt pat (c :: t) || strContainsSub t pat

/-- Decimal digits of a natural number (fuel-based so the kernel can reduce it). -/
def natToStrAux : Nat → Nat → Str
  | 0, _ => []
  | fuel + 1, n => if n = 0 then [] else natToStrAux fuel (n / 10) ++ [Char.ofNat (48 + n % 10)]

/-- Decimal rendering of a natural number. -/
def natToStr (n : Nat) : Str := if n = 0 then ['0'] else natToStrAux (n + 1) n

/-- Decimal rendering of an integer (exit codes are `i32` in the source). -/
def intToStr (i : Int) : Str :=
  if i < 0 then '-' :: natToStr i.natAbs else natToStr i.natAbs

/-- Embedding of `str::parse::<u16>` used by `parse_host_port`: digits only,
with the `u16` range check. (Rust also accepts a leading `+`, which never
occurs in the fixed addresses this program parses.) -/
def parseNatAux : Str → Nat → Option Nat
  | [], acc => some acc
  | c :: t, acc => if c.isDigit then parseNatAux t (acc * 10 + (c.toNat - 48)) else none

/-- Parse a `u16`, `none` on empty / non-digit / out-of-range input. -/
def parseU16 (cs : Str) : Option Nat :=
  if cs.isEmpty then none
  else match parseNatAux cs 0 with
    | some n => if n ≤ 65535 then some n else none
    | none => none

/-- Embedding of `str::trim_start`. -/
def trimStart (s : Str) : Str := s.dropWhile Char.isWhitespace

/-- Embedding of `str::trim_end`. -/
def trimEnd (s : Str) : Str := (s.reverse.dropWhile Char.isWhitespace).reverse

/-- Embedding of `str::trim`. -/
def trimStr (s : Str) : Str := trimEnd (trimStart s)

/-- Index of the first `=` in a line, embedding `str::find('=')`. -/
def findEqIdx : Str → Option Nat
  | [] => none
  | c :: t => if c = '=' then some 0 else (findEqIdx t).map (· + 1)

/-! ## Log classifier (`src/process_log.rs`) -/

/-- The event tag produced by the log classifier (`LogLineEvent` in the source). -/
inductive LogLineEvent
  | Connected
  | ConnectError
  | PostConnectError
  | Normal
deriving DecidableEq, Repr

/-- Embedding of `classify_log_line` from `src/process_log.rs`. -/
def classify_log_line (line : Str) (already_connected : Bool) : LogLineEvent :=
  let lower := lowerStr line
  if strContainsSub lower "successfully connected to endpoint".toList
      || strContainsSub lower "successfully connected".toList
      || strContainsSub lower "socks listener started".toList
      || (strContainsSub lower "listening".toList && strContainsSub lower "socks".toList)
      || (strContainsSub lower "socks".toList && strContainsSub lower "bind".toList) then
    LogLineEvent.Connected
  else if !already_connected
      && !strContainsSub lower "waiting recovery".toList
      && (prefAt "error:".toList lower
        || strContainsSub lower "failed to".toList
        || strContainsSub lower "denied".toList
        || strContainsSub lower "unauthorized".toList
        || strContainsSub lower "refused".toList
        || strContainsSub lower "failed parsing".toList
        || strContainsSub lower "failed to start listening".toList
        || strContainsSub lower "failed to create listener".toList
        || strContainsSub lower "failed to initialize tunnel".toList
        || strContainsSub lower ("couldn".toList ++ apos :: "t detect active network".toList)
        || strContainsSub lower "failed on create vpn".toList) then
    LogLineEvent.ConnectError
  else if already_connected
      && (strContainsSub lower "health check error".toList
        || strContainsSub lower "response: http/2.0 407".toList
        || (strContainsSub lower "authorization required".toList
            && !strContainsSub lower "proxy-authenticate".toList)
        || (strContainsSub lower "connection failed".toList
            && strContainsSub lower "socks".toList)) then
    LogLineEvent.PostConnectError
  else
    LogLineEvent.Normal

/-- The classifier rule table as written in the specification (section 4.1):
Connected check first (regardless of the flag), then the phase-appropriate
error check with the `waiting recovery` suppression, otherwise Normal. -/
def classifySpec (line : Str) (already_connected : Bool) : LogLineEvent :=
  let lower := lowerStr line
  if strContainsSub lower "successfully connected to endpoint".toList
      || strContainsSub lower "successfully connected".toList
      || strContainsSub lower "socks listener started".toList
      || (strContainsSub lower "listening".toList && strContainsSub lower "socks".toList)
      || (strContainsSub lower "socks".toList && strContainsSub lower "bind".toList) then
    LogLineEvent.Connected
  else if !already_connected
      && !strContainsSub lower "waiting recovery".toList
      && (prefAt "error:".toList lower
        || strContainsSub lower "failed to".toList
        || strContainsSub lower "denied".toList
        || strContainsSub lower "unauthorized".toList
        || strContainsSub lower "refused".toList
        || strContainsSub lower "failed parsing".toList
        || strContainsSub lower "failed to start listening".toList
        || strContainsSub lower "failed to create listener".toList
        || strContainsSub lower "failed to initialize tunnel".toList
        || strContainsSub lower ("couldn".toList ++ apos :: "t detect active network".toList)
        || strContainsSub lower "failed on create vpn".toList) then
    LogLineEvent.ConnectError
  else if already_connected
      && (strContainsSub lower "health check error".toList
        || strContainsSub lower "response: http/2.0 407".toList
        || (strContainsSub lower "authorization required".toList
            && !strContainsSub lower "proxy-authenticate".toList)
        || (strContainsSub lower "connection failed".toList
            && strContainsSub lower "socks".toList)) then
    LogLineEvent.PostConnectError
  else
    LogLineEvent.Normal

/-! ## Process log (`src/process_log.rs`) -/

/-- `MAX_LOG_LINES` from the source. -/
def MAX_LOG_LINES : Nat := 500

/-- Embedding of `ProcessLog`. -/
structure ProcessLog where
  lines : List Str
  connected : Bool
  error : Option Str
  post_connect_error : Option Str
deriving DecidableEq, Repr

/-- `ProcessLog::new`. -/
def ProcessLog.new : ProcessLog :=
  { lines := [], connected := false, error := none, post_connect_error := none }

/-- `ProcessLog::reset` clears all four fields back to their initial values. -/
def ProcessLog.reset (_log : ProcessLog) : ProcessLog :=
  { lines := [], connected := false, error := none, post_connect_error := none }

/-- Embedding of `ProcessLog::push_line`: classify against the current
`connected` flag, latch the derived flags, always append the raw line, evict
the oldest line when the buffer exceeds `MAX_LOG_LINES`. -/
def ProcessLog.push_line (log : ProcessLog) (line : Str) : ProcessLog :=
  let log1 :=
    match classify_log_line line log.connected with
    | LogLineEvent.Connected => { log with connected := true }
    | LogLineEvent.ConnectError =>
        if log.error.isNone then { log with error := some line } else log
    | LogLineEvent.PostConnectError =>
        if log.post_connect_error.isNone then { log with post_connect_error := some line } else log
    | LogLineEvent.Normal => log
  let appended := log1.lines ++ [line]
  { log1 with lines := if appended.length > MAX_LOG_LINES then appended.tail else appended }

/-- A whole sequence of `push_line` calls, in order. -/
def ProcessLog.pushAll (log : ProcessLog) (ls : List Str) : ProcessLog :=
  ls.foldl ProcessLog.push_line log

/-! ## Session controller model (`src/app.rs`, `src/connection_state.rs`,
`src/system/mod.rs`, `src/system/proxy.rs`) -/

/-- Embedding of `ConnectionState` from `src/connection_state.rs`. -/
inductive ConnectionState
  | Disconnected
  | Connecting
  | Connected
  | Disconnecting
  | Error (message : Str)
deriving DecidableEq, Repr

/-- `ConnectionState::is_active`. -/
def ConnectionState.is_active : ConnectionState → Bool
  | ConnectionState.Connecting => true
  | ConnectionState.Connected => true
  | ConnectionState.Disconnecting => true
  | _ => false

/-- Embedding of `ChildExit` from `src/system/mod.rs`. -/
structure ChildExit where
  code : Option Int
deriving DecidableEq, Repr

/-- `ChildExit::success`. -/
def ChildExit.success (e : ChildExit) : Bool := e.code == some 0

/-- The `Display` implementation of `ChildExit`. -/
def ChildExit.display (e : ChildExit) : Str :=
  match e.code with
  | some c => "exit code: ".toList ++ intToStr c
  | none => "terminated by signal".toList

/-- A system proxy backend (the `ProxyBackend` trait object): its name and,
as an environment oracle, the outcome its `set(host, port)` would produce. -/
structure ProxyBackend where
  name : Str
  setOutcome : Str → Nat → Except Str Str

/-- A DNS backend (the `DnsBackend` trait object) at the controller level:
its name and the outcome its `set(upstreams)` would produce. -/
structure DnsBackend where
  name : Str
  setOutcome : List Str → Except Str Str

/-- Observable side effects of the controller, recorded as an event trace:
each constructor is one backend/OS operation the Rust code performs. -/
inductive SysEv
  | proxySet (backend : Str)
  | proxyClear (backend : Str)
  | dnsSet (backend : Str)
  | dnsClear (backend : Str)
  | spawnChild
  | killChild
  | terminateSignal
deriving DecidableEq, Repr

/-- Embedding of `TunnelMode` (from `src/configuration.rs`). -/
inductive TunnelMode
  | Tun
  | SystemProxy
  | Proxy
deriving DecidableEq, Repr

/-- `TunnelMode::is_tun`. -/
def TunnelMode.is_tun : TunnelMode → Bool
  | TunnelMode.Tun => true
  | _ => false

/-- `TunnelMode::sets_system_proxy`. -/
def TunnelMode.sets_system_proxy : TunnelMode → Bool
  | TunnelMode.SystemProxy => true
  | _ => false

/-- Everything the environment decides during one controller step: what
`try_wait` reports, which proxy/DNS backends detection returns, whether the
graceful-shutdown timeout has elapsed, the preflight checks, and the outcomes
of validation / serialization / config write / spawn during `connect`.
`validation` is modelled from the spec: `CredentialFile::validate` (called at
`app.rs:1428`) is not part of the sources under `src/`; per the spec it
returns a field-specific `(error label, detail)` pair for invalid
user-supplied endpoint fields, `none` when the fields are valid. -/
structure Env where
  tryWait : Option ChildExit
  detectProxy : List ProxyBackend
  detectDns : Option DnsBackend
  dnsUpstreamsText : Str
  disconnectTimedOut : Bool
  checkTunDevice : Bool
  checkElevationAvailable : Bool
  validation : Option (Str × Str)
  serializeResult : Except Str Unit
  writeResult : Except Str Unit
  spawnResult : Except Str Unit

/-- The session-controller state: the fields of `TrustTunnelApp` that the
lifecycle core reads and writes (UI entities and file handles are omitted;
`disconnecting_since` keeps only whether the `Instant` is set, the elapsed
comparison being the `Env.disconnectTimedOut` oracle). -/
structure AppSt where
  connection_state : ConnectionState
  child_process : Option Unit
  proxy_overrides : List ProxyBackend
  dns_override : Option DnsBackend
  status_detail : Str
  binary_path : Str
  binary_found : Bool
  tunnel_mode : TunnelMode
  dns_enabled : Bool
  poll_tick : Nat
  disconnecting_since : Bool
  process_log : ProcessLog

/-- `PROXY_LISTEN_ADDRESS` from `src/configuration.rs`. -/
def PROXY_LISTEN_ADDRESS : Str := "127.0.0.1:1080".toList

/-- Index (from the end) helper for `str::rfind(':')`. -/
def rfindColon (cs : Str) : Option Nat :=
  (cs.reverse.findIdx? (fun c => c = ':')).map (fun r => cs.length - 1 - r)

/-- Embedding of `parse_host_port` from `src/system/mod.rs`: handles
`[IPv6]:port` brackets, a bare IPv6 address without a port, and a trailing
`:port`, defaulting the port to 1080. -/
def parse_host_port (address : Str) : Str × Nat :=
  let bracketCase : Option (Str × Nat) :=
    if prefAt "[".toList address then
      (address.findIdx? (fun c => c = ']')).map (fun bracketEnd =>
        ((address.take bracketEnd).drop 1,
          match address.drop (bracketEnd + 1) with
          | ':' :: p => (parseU16 p).getD 1080
          | _ => 1080))
    else none
  match bracketCase with
  | some r => r
  | none =>
    match rfindColon address with
    | some i =>
      let before := address.take i
      if before.contains ':' then (address, 1080)
      else (before, (parseU16 (address.drop (i + 1))).getD 1080)
    | none => (address, 1080)

/-- The detail string a single backend contributes in `proxy::set_all`
(both the `Ok` and the `Err` detail are pushed). -/
def backendDetail (b : ProxyBackend) (host : Str) (port : Nat) : Str :=
  match b.setOutcome host port with
  | Except.ok d => d
  | Except.error d => d

/-- Embedding of `proxy::set_all` from `src/system/proxy.rs`: apply `set` to
every detected backend, keep every detected backend in the returned list
(set failures included), and join the detail strings with `"; "`. -/
def set_all (backends : List ProxyBackend) (host : Str) (port : Nat) :
    List ProxyBackend × Str × List SysEv :=
  let details := backends.map (fun b => backendDetail b host port)
  let combined :=
    if details.isEmpty then "No proxy backend available".toList
    else List.intercalate "; ".toList details
  (backends, combined, backends.map (fun b => SysEv.proxySet b.name))

/-- Embedding of the override-clearing block that `app.rs` repeats in
`cleanup_child`, `handle_child_exit` and `disconnect`:
`proxy::clear_all(&mut self.proxy_overrides); self.proxy_overrides.clear();`
followed by `if let Some(mut dns) = self.dns_override.take() { dns.clear(); }`
(`clear_all` iterates the stored backends, so an empty list clears nothing). -/
def clear_overrides (st : AppSt) : AppSt × List SysEv :=
  let proxyEvs := st.proxy_overrides.map (fun b => SysEv.proxyClear b.name)
  let dnsEvs := match st.dns_override with
    | some d => [SysEv.dnsClear d.name]
    | none => []
  ({ st with proxy_overrides := [], dns_override := none }, proxyEvs ++ dnsEvs)

/-- Embedding of `TrustTunnelApp::cleanup_child` (`app.rs:278`): restore
proxy and DNS overrides, then take the child handle out of the controller
(the Windows-only elevated-marker cleanup is cfg'd out of the Linux build
modelled here). -/
def cleanup_child (st : AppSt) : AppSt × Option Unit × List SysEv :=
  let c := clear_overrides st
  match c.1.child_process with
  | none => (c.1, none, c.2)
  | some u => ({ c.1 with child_process := none }, some u, c.2)

/-- Embedding of `TrustTunnelApp::handle_child_exit` (`app.rs:622`): drop the
child handle, clear any proxy/DNS overrides unconditionally, then transition:
`Disconnecting` reaps cleanly, exit code 0 is a clean `Disconnected`, and the
failure codes map to their specific detail messages. -/
def handle_child_exit (exit : ChildExit) (st : AppSt) : AppSt × List SysEv :=
  let st := { st with child_process := none }
  let c := clear_overrides st
  let st := c.1
  if st.connection_state = ConnectionState.Disconnecting then
    ({ st with connection_state := ConnectionState.Disconnected, status_detail := [] }, c.2)
  else if exit.success then
    ({ st with connection_state := ConnectionState.Disconnected, status_detail := [] }, c.2)
  else
    let code := match exit.code with
      | some c => intToStr c
      | none => "signal".toList
    let detail :=
      if exit.code = some 126 then
        "pkexec authentication was dismissed — try again and authenticate when prompted".toList
      else if exit.code = some 127 then
        "Binary ".toList ++ apos :: st.binary_path
          ++ apos :: " not found. Install TrustTunnel client:\n  https://github.com/TrustTunnel/TrustTunnelClient".toList
      else
        "Client exited with code ".toList ++ code
    ({ st with
        connection_state := ConnectionState.Error ("Exited (".toList ++ code ++ ")".toList),
        status_detail := detail }, c.2)

/-- The upstream-list parsing inside `transition_to_connected`:
split on `,`, trim, strip a `tls://` scheme, drop empties. -/
def parseUpstreams (text : Str) : List Str :=
  ((text.splitOn ',').map (fun s =>
    let t := trimStr s
    if prefAt "tls://".toList t then t.drop 6 else t)).filter (fun s => !s.isEmpty)

/-- Embedding of `TrustTunnelApp::transition_to_connected` (`app.rs:705`):
set the state to `Connected`, apply the system proxy when the mode requires
it and nothing is applied yet, apply the DNS override when enabled in TUN
mode (the `!cfg!(windows)` conjunct is true for the Linux build modelled
here), and compute the mode-specific status message. -/
def transition_to_connected (st : AppSt) (env : Env) : AppSt × List SysEv :=
  let st1 := { st with connection_state := ConnectionState.Connected }
  let hostPort := parse_host_port PROXY_LISTEN_ADDRESS
  let proxyStep :=
    if st1.tunnel_mode.sets_system_proxy && st1.proxy_overrides.isEmpty then
      let r := set_all env.detectProxy hostPort.1 hostPort.2
      ({ st1 with proxy_overrides := r.1 }, r.2.1, r.2.2)
    else (st1, ([] : Str), ([] : List SysEv))
  let st2 := proxyStep.1
  let ui_manages_dns := st2.dns_enabled && st2.tunnel_mode.is_tun && st2.dns_override.isNone
  let dnsStep :=
    if ui_manages_dns then
      match env.detectDns with
      | some backend =>
        match backend.setOutcome (parseUpstreams env.dnsUpstreamsText) with
        | Except.ok d =>
          ({ st2 with dns_override := some backend }, d, [SysEv.dnsSet backend.name])
        | Except.error d => (st2, d, [SysEv.dnsSet backend.name])
      | none => (st2, proxyStep.2.1, ([] : List SysEv))
    else (st2, proxyStep.2.1, ([] : List SysEv))
  let st3 := dnsStep.1
  let detail := dnsStep.2.1
  let status :=
    match st3.tunnel_mode with
    | TunnelMode.Tun =>
      match st3.dns_override with
      | some d => "TUN tunnel active (system-wide)\nDNS configured via ".toList ++ d.name
      | none => "TUN tunnel active (system-wide)".toList
    | TunnelMode.SystemProxy =>
      "System proxy active — all apps route through VPN\nSOCKS5 on 127.0.0.1:1080".toList
        ++ (if detail.isEmpty then [] else '\n' :: detail)
        ++ "\nProxy will be restored on disconnect or quit".toList
    | TunnelMode.Proxy =>
      "SOCKS5 proxy on 127.0.0.1:1080\nTerminal: export ALL_PROXY=\"socks5://127.0.0.1:1080\"\nFirefox: Settings → Network → SOCKS5 Host: 127.0.0.1  Port: 1080\nChromium: --proxy-server=\"socks5://127.0.0.1:1080\"".toList
  ({ st3 with status_detail := status }, proxyStep.2.2 ++ dnsStep.2.2)

/-- Embedding of `TrustTunnelApp::poll_connecting` (`app.rs:675`): a latched
connect-phase error tears the child down and sets `Error("Connection
failed")`; otherwise a latched `connected` flag triggers the Connected
transition. -/
def poll_connecting (st : AppSt) (env : Env) : AppSt × List SysEv :=
  if st.process_log.error.isSome then
    let c := cleanup_child st
    let evs := c.2.2 ++ (if c.2.1.isSome then [SysEv.killChild] else [])
    ({ c.1 with
        connection_state := ConnectionState.Error ("Connection failed".toList),
        status_detail := [] }, evs)
  else if st.process_log.connected then
    transition_to_connected st env
  else
    ({ st with status_detail := [] }, [])

/-- Embedding of `TrustTunnelApp::poll_disconnecting` (`app.rs:788`). -/
def poll_disconnecting (st : AppSt) (env : Env) : AppSt × List SysEv :=
  let timed_out := st.disconnecting_since && env.disconnectTimedOut
  if !timed_out then (st, [])
  else
    let evs := if st.child_process.isSome then [SysEv.killChild] else []
    ({ st with
        child_process := none,
        connection_state := ConnectionState.Disconnected,
        status_detail := "Force disconnected (process did not exit in time)".toList }, evs)

/-- Embedding of `TrustTunnelApp::try_reap_child` (`app.rs:611`): `try_wait`
is only consulted while a child handle is owned. -/
def try_reap_child (st : AppSt) (env : Env) : Option ChildExit :=
  match st.child_process with
  | some _ => env.tryWait
  | none => none

/-- `u32` wrap-around modulus for the poll tick counter. -/
def U32_MOD : Nat := 4294967296

/-- Embedding of `TrustTunnelApp::poll_process_state` (`app.rs:590`): bump
the (wrapping) tick counter, do work only on every 4th tick, check the child
exit first, and only then dispatch on the current state. -/
def poll_process_state (st : AppSt) (env : Env) : AppSt × List SysEv :=
  let st := { st with poll_tick := (st.poll_tick + 1) % U32_MOD }
  if st.poll_tick % 4 ≠ 0 then (st, [])
  else
    match try_reap_child st env with
    | some exit => handle_child_exit exit st
    | none =>
      match st.connection_state with
      | ConnectionState.Connecting => poll_connecting st env
      | ConnectionState.Connected => (st, [])
      | ConnectionState.Disconnecting => poll_disconnecting st env
      | _ => (st, [])

/-- Embedding of `TrustTunnelApp::disconnect` (`app.rs:1522`): a no-op while
already `Disconnecting`; otherwise clear the overrides immediately, then reap
an already-exited child, or signal a live one and enter `Disconnecting`, or
go straight to `Disconnected` when no child is owned. -/
def disconnect (st : AppSt) (env : Env) : AppSt × List SysEv :=
  if st.connection_state = ConnectionState.Disconnecting then (st, [])
  else
    let c := clear_overrides st
    match c.1.child_process with
    | some _ =>
      match env.tryWait with
      | some exit =>
        ({ c.1 with
            child_process := none,
            connection_state := ConnectionState.Disconnected,
            status_detail := "Client already exited (".toList ++ exit.display ++ ")".toList },
          c.2)
      | none =>
        ({ c.1 with
            connection_state := ConnectionState.Disconnecting,
            status_detail := [],
            disconnecting_since := true }, c.2 ++ [SysEv.terminateSignal])
    | none =>
      ({ c.1 with
          connection_state := ConnectionState.Disconnected,
          status_detail := [] }, c.2)

/-- Embedding of `TrustTunnelApp::connect` (`app.rs:1356`): a no-op while the
state is active (`is_locked`); then the preflight checks, teardown of a
previous child, validation, serialization, config write, log reset and spawn,
each failure setting the corresponding `Error` state. -/
def connect (st : AppSt) (env : Env) : AppSt × List SysEv :=
  if st.connection_state.is_active then (st, [])
  else if !st.binary_found then
    ({ st with
        connection_state := ConnectionState.Error ("Client binary not found".toList),
        status_detail := "Could not find ".toList ++ apos :: "trusttunnel_client".toList
          ++ apos :: " in PATH or standard locations.\n\nInstall the TrustTunnel client:\n  https://github.com/TrustTunnel/TrustTunnelClient".toList },
      [])
  else if st.tunnel_mode.is_tun && !env.checkTunDevice then
    ({ st with
        connection_state := ConnectionState.Error ("TUN device not available".toList),
        status_detail := "/dev/net/tun not found. Load the tun kernel module:\n  sudo modprobe tun\n\nTo make it persistent, add ".toList
          ++ apos :: "tun".toList ++ apos :: " to /etc/modules-load.d/tun.conf".toList }, [])
  else if st.tunnel_mode.is_tun && !env.checkElevationAvailable then
    ({ st with
        connection_state := ConnectionState.Error ("Privilege elevation unavailable".toList),
        status_detail := "pkexec is required for TUN mode (root privileges needed).\nInstall policykit-1 or try Proxy/System Proxy mode instead.".toList },
      [])
  else
    let c := cleanup_child st
    let st1 := c.1
    let evs := c.2.2 ++ (if c.2.1.isSome then [SysEv.killChild] else [])
    match env.validation with
    | some err =>
      ({ st1 with connection_state := ConnectionState.Error err.1, status_detail := err.2 }, evs)
    | none =>
      match env.serializeResult with
      | Except.error e =>
        let message := "Configuration serialization error: ".toList ++ e
        ({ st1 with
            connection_state := ConnectionState.Error message,
            status_detail := message }, evs)
      | Except.ok _ =>
        match env.writeResult with
        | Except.error e =>
          let message := "Failed to write config: ".toList ++ e
          ({ st1 with
              connection_state := ConnectionState.Error message,
              status_detail := message }, evs)
        | Except.ok _ =>
          let st2 := { st1 with
              process_log := st1.process_log.reset,
              connection_state := ConnectionState.Connecting }
          match env.spawnResult with
          | Except.ok _ =>
            ({ st2 with child_process := some (), status_detail := [] },
              evs ++ [SysEv.spawnChild])
          | Except.error e =>
            ({ st2 with
                connection_state := ConnectionState.Error "Failed to start client".toList,
                status_detail := "Could not start TrustTunnel client: ".toList ++ e
                  ++ "\n\nInstall the TrustTunnel client:\n  https://github.com/TrustTunnel/TrustTunnelClient".toList },
              evs ++ [SysEv.spawnChild])



/-! ## DNS backends (`src/system/resolved.rs`, `src/system/resolvconf.rs`,
`src/system/powershell_dns.rs`, `src/system/dns.rs`) -/

/-- Environment for the DNS backend models: the result of the TUN-interface
discovery (`find_tun_interface` enumerates interfaces via `ip link`, sysfs
and name probes; modelled as an oracle) and the success of each mutation
command the backends run. -/
structure DnsEnv where
  tunInterface : Option Str
  resolvectlDnsOk : Bool
  resolvconfAddOk : Bool
  resolvconfAddElevatedOk : Bool
  powershellSetOk : Bool

/-- Resolver-configuration commands a DNS backend issues (system mutations;
the read-only `resolvectl status` query is not recorded). -/
inductive DnsCmd
  | resolvectlDns (iface : Str) (servers : List Str)
  | resolvectlDomain (iface : Str)
  | resolvectlDefaultRoute (iface : Str)
  | resolvconfAdd (iface : Str)
  | powershellSetDns (servers : List Str)
deriving DecidableEq, Repr

/-- `DEFAULT_DNS_SERVERS` from `src/system/dns.rs`. -/
def DEFAULT_DNS_SERVERS : List Str := ["1.1.1.1".toList, "1.0.0.1".toList]

/-- The `ResolvedDns` backend state: the interface a successful `set`
remembered for `clear`. -/
structure ResolvedDns where
  interface : Option Str

/-- `ResolvedDns::new`. -/
def ResolvedDns.new : ResolvedDns := { interface := none }

/-- Embedding of `ResolvedDns::set` (`src/system/resolved.rs:32`): discover
the TUN interface — failing without issuing any resolver mutation and
without recording an interface when none is found — then `resolvectl dns`,
and on its success the routing-domain and default-route commands (whose
failures are only logged), remembering the interface. Returns the updated
backend state, the `Result` detail, and the issued mutation commands. -/
def ResolvedDns.set (d : ResolvedDns) (env : DnsEnv) (upstreams : List Str) :
    ResolvedDns × Except Str Str × List DnsCmd :=
  match env.tunInterface with
  | none =>
    (d, Except.error ("DNS via systemd-resolved: no TUN interface found".toList), [])
  | some iface =>
    let servers := if upstreams.isEmpty then DEFAULT_DNS_SERVERS else upstreams
    if !env.resolvectlDnsOk then
      (d, Except.error ("Failed to set DNS servers on ".toList ++ iface
          ++ " via resolvectl".toList),
        [DnsCmd.resolvectlDns iface servers])
    else
      ({ interface := some iface },
        Except.ok ("DNS configured via systemd-resolved on ".toList ++ iface
          ++ " (".toList ++ List.intercalate ", ".toList servers ++ ")".toList),
        [DnsCmd.resolvectlDns iface servers, DnsCmd.resolvectlDomain iface,
          DnsCmd.resolvectlDefaultRoute iface])

/-- `RESOLVCONF_INTERFACE` from `src/system/resolvconf.rs`: a fixed record
name, not a discovered interface. -/
def RESOLVCONF_INTERFACE : Str := "tun-trusttunnel".toList

/-- Embedding of `ResolvconfDns::set` (`src/system/resolvconf.rs:33`): no
interface discovery — it pipes the nameserver lines into
`resolvconf -a tun-trusttunnel` (retrying under pkexec when the direct
invocation fails), succeeding whenever either invocation succeeds. -/
def ResolvconfDns.set (env : DnsEnv) (upstreams : List Str) :
    Except Str Str × List DnsCmd :=
  let servers := if upstreams.isEmpty then DEFAULT_DNS_SERVERS else upstreams
  if env.resolvconfAddOk then
    (Except.ok ("DNS configured via resolvconf (".toList
        ++ List.intercalate ", ".toList servers ++ ")".toList),
      [DnsCmd.resolvconfAdd RESOLVCONF_INTERFACE])
  else if env.resolvconfAddElevatedOk then
    (Except.ok ("DNS configured via resolvconf with pkexec (".toList
        ++ List.intercalate ", ".toList servers ++ ")".toList),
      [DnsCmd.resolvconfAdd RESOLVCONF_INTERFACE, DnsCmd.resolvconfAdd RESOLVCONF_INTERFACE])
  else
    (Except.error ("Failed to set DNS via resolvconf (tried both direct and pkexec)".toList),
      [DnsCmd.resolvconfAdd RESOLVCONF_INTERFACE, DnsCmd.resolvconfAdd RESOLVCONF_INTERFACE])

/-- Embedding of `PowerShellDns::set` (`src/system/powershell_dns.rs:41`):
applies the server list to every ordinary (non-TUN/TAP/Loopback) adapter via
one PowerShell command — no TUN-interface discovery, and the command is
issued regardless of its outcome. -/
def PowerShellDns.set (env : DnsEnv) (upstreams : List Str) :
    Except Str Str × List DnsCmd :=
  let servers := if upstreams.isEmpty then DEFAULT_DNS_SERVERS else upstreams
  if env.powershellSetOk then
    (Except.ok ("DNS configured via PowerShell (".toList
        ++ List.intercalate ",".toList servers ++ ")".toList),
      [DnsCmd.powershellSetDns servers])
  else
    (Except.error
        ("Failed to set DNS via PowerShell (may require administrator privileges)".toList),
      [DnsCmd.powershellSetDns servers])

/-! ## Configuration redaction (`src/configuration.rs`) -/

/-- One line of `redact_password_in_toml` (`configuration.rs:398`): a line
whose trimmed start begins with `password` has everything after the first `=`
replaced by `= "<asterisks>"`, the asterisk count being the value's length
with surrounding double quotes stripped when present; any other line is
returned unchanged. -/
def redactLine (line : Str) : Str :=
  if prefAt "password".toList (trimStart line) then
    match findEqIdx line with
    | some i =>
      let value := trimStr (line.drop (i + 1))
      let inner : Option Str :=
        match value with
        | '"' :: rest => if rest.getLast? = some '"' then some rest.dropLast else none
        | _ => none
      let length :=
        match inner with
        | some innerValue => innerValue.length
        | none => value.length
      line.take i ++ "= \"".toList ++ List.replicate length '*' ++ ['"']
    | none => line
  else line

/-- The final-empty-segment drop of Rust `str::lines`: a trailing newline
produces no extra line. -/
def dropFinalEmpty (chunks : List Str) : List Str :=
  if chunks.getLast? = some [] then chunks.dropLast else chunks

/-- Rust `str::lines`: split on the newline character, drop a final empty
segment, strip one trailing carriage return from each line. -/
def rustLines (s : Str) : List Str :=
  (dropFinalEmpty (s.splitOn '\n')).map
    (fun l => if l.getLast? = some '\r' then l.dropLast else l)

/-- Embedding of `redact_password_in_toml` (`configuration.rs:398`):
`toml.lines().map(<redact one line>).collect::<Vec<_>>().join("\n")`. -/
def redact_password_in_toml (toml : Str) : Str :=
  List.intercalate ['\n'] ((rustLines toml).map redactLine)

/-! ## Concrete example states used by the witnesses -/

/-- An environment in which nothing is detected and every fallible call
succeeds. -/
def noEnv : Env where
  tryWait := none
  detectProxy := []
  detectDns := none
  dnsUpstreamsText := []
  disconnectTimedOut := false
  checkTunDevice := true
  checkElevationAvailable := true
  validation := none
  serializeResult := Except.ok ()
  writeResult := Except.ok ()
  spawnResult := Except.ok ()

/-- A disconnected controller in system-proxy mode with no overrides. -/
def baseSt : AppSt where
  connection_state := ConnectionState.Disconnected
  child_process := none
  proxy_overrides := []
  dns_override := none
  status_detail := []
  binary_path := "trusttunnel_client".toList
  binary_found := true
  tunnel_mode := TunnelMode.SystemProxy
  dns_enabled := false
  poll_tick := 0
  disconnecting_since := false
  process_log := ProcessLog.new

/-- A proxy backend whose `set` always succeeds. -/
def demoProxyBackend : ProxyBackend where
  name := "GSettings".toList
  setOutcome := fun _ _ => Except.ok ("proxy ok".toList)

/-- A DNS backend whose `set` always succeeds. -/
def demoDnsBackend : DnsBackend where
  name := "systemd-resolved".toList
  setOutcome := fun _ => Except.ok ("dns ok".toList)

/-- A controller mid-`Connecting` whose log has confirmed the connection and
whose next poll call lands on a working tick. -/
def pollSt : AppSt where
  connection_state := ConnectionState.Connecting
  child_process := some ()
  proxy_overrides := []
  dns_override := none
  status_detail := []
  binary_path := "trusttunnel_client".toList
  binary_found := true
  tunnel_mode := TunnelMode.SystemProxy
  dns_enabled := false
  poll_tick := 3
  disconnecting_since := false
  process_log := { lines := [], connected := true, error := none, post_connect_error := none }

/-- An environment in which `try_wait` reports a clean exit. -/
def exitEnv : Env := { noEnv with tryWait := some { code := some 0 } }

/-- An environment detecting one proxy backend. -/
def proxyEnv : Env := { noEnv with detectProxy := [demoProxyBackend] }

/-- A connected controller holding one proxy override and a DNS override. -/
def overridesSt : AppSt :=
  { baseSt with
      connection_state := ConnectionState.Connected,
      proxy_overrides := [demoProxyBackend],
      dns_override := some demoDnsBackend }

/-- A DNS-backend environment in which no TUN interface exists but the
`resolvconf` command succeeds. -/
def dnsEnvNoTun : DnsEnv where
  tunInterface := none
  resolvectlDnsOk := false
  resolvconfAddOk := true
  resolvconfAddElevatedOk := false
  powershellSetOk := true


/-! ## Theorems -/

/-- `push_line` never changes the `lines` buffer except by the append-and-evict
step: helper equation shared by several claims. -/
theorem push_line_lines (log : ProcessLog) (line : Str) :
    (log.push_line line).lines =
      if (log.lines ++ [line]).length > MAX_LOG_LINES then (log.lines ++ [line]).tail
      else log.lines ++ [line] := by
  unfold ProcessLog.push_line
  cases hc : classify_log_line line log.connected <;> simp only [] <;> split <;> simp_all

/-- `push_line` keeps the connected flag, the error latch and the post-connect
latch monotone: helper shared by several claims. -/
theorem push_line_flags (log : ProcessLog) (line : Str) :
    (log.connected = true → (log.push_line line).connected = true)
    ∧ (∀ e, log.error = some e → (log.push_line line).error = some e)
    ∧ (∀ e, log.post_connect_error = some e →
        (log.push_line line).post_connect_error = some e) := by
  unfold ProcessLog.push_line
  cases hc : classify_log_line line log.connected <;> simp only [] <;>
    refine ⟨fun h => ?_, fun e h => ?_, fun e h => ?_⟩ <;> (try split) <;> simp_all

/-- The bounded-buffer closed form: pushing a list of lines into a log whose
buffer respects the bound keeps exactly the most recent 500 lines. -/
theorem pushAll_lines (ls : List Str) : ∀ (log : ProcessLog),
    log.lines.length ≤ MAX_LOG_LINES →
    (log.pushAll ls).lines =
      (log.lines ++ ls).drop (log.lines.length + ls.length - MAX_LOG_LINES) := by
  induction ls with
  | nil =>
    intro log h
    simp [ProcessLog.pushAll, Nat.sub_eq_zero_of_le h]
  | cons l t ih =>
    intro log h
    have hstep : (ProcessLog.pushAll log (l :: t)) = (log.push_line l).pushAll t := by
      simp [ProcessLog.pushAll]
    rw [hstep]
    rcases Nat.lt_or_ge log.lines.length MAX_LOG_LINES with hlt | hge
    · have hcond : ¬ (log.lines ++ [l]).length > MAX_LOG_LINES := by
        simp only [List.length_append, List.length_cons, List.length_nil]
        omega
      have hkeep : (log.push_line l).lines = log.lines ++ [l] := by
        rw [push_line_lines, if_neg hcond]
      have hlen : (log.push_line l).lines.length ≤ MAX_LOG_LINES := by
        rw [hkeep]; simp only [List.length_append, List.length_cons, List.length_nil]; omega
      rw [ih _ hlen, hkeep]
      simp only [List.length_append, List.length_cons, List.length_nil, List.append_assoc,
        List.cons_append, List.nil_append]
      have harith : log.lines.length + 1 + t.length - MAX_LOG_LINES
          = log.lines.length + (t.length + 1) - MAX_LOG_LINES := by omega
      rw [harith]
    · have heq : log.lines.length = MAX_LOG_LINES := Nat.le_antisymm h hge
      have hne : log.lines ≠ [] := by
        intro hnil
        rw [hnil] at heq
        simp [MAX_LOG_LINES] at heq
      obtain ⟨x, xs, hx⟩ := List.exists_cons_of_ne_nil hne
      have hcond : (log.lines ++ [l]).length > MAX_LOG_LINES := by
        simp only [List.length_append, List.length_cons, List.length_nil]
        omega
      have hdropped : (log.push_line l).lines = xs ++ [l] := by
        rw [push_line_lines, if_pos hcond, hx]
        simp
      have hxslen : xs.length + 1 = MAX_LOG_LINES := by
        have := heq
        rw [hx] at this
        simpa using this
      have hlen2 : (log.push_line l).lines.length ≤ MAX_LOG_LINES := by
        rw [hdropped]
        simp only [List.length_append, List.length_cons, List.length_nil]
        omega
      rw [ih _ hlen2, hdropped]
      rw [hx]
      simp only [List.length_append, List.length_cons, List.length_nil, List.append_assoc,
        List.cons_append, List.nil_append]
      have h1 : xs.length + 1 + (t.length + 1) - MAX_LOG_LINES = t.length + 1 - 1 + 1 := by omega
      have h2 : xs.length + 1 + t.length - MAX_LOG_LINES = t.length := by omega
      rw [h1, h2]
      simp [List.drop_succ_cons]

/-- A `push_line` of a connect-phase-error line on a not-yet-connected log:
the connected flag is untouched and the error field latches. Helper shared by
several claims. -/
theorem push_line_connect_error (log : ProcessLog) (line : Str)
    (hcon : log.connected = false)
    (hcl : classify_log_line line false = LogLineEvent.ConnectError) :
    (log.push_line line).connected = false
    ∧ (log.push_line line).error
        = (if log.error.isNone then some line else log.error) := by
  unfold ProcessLog.push_line
  cases hc2 : classify_log_line line log.connected with
  | Connected => rw [hcon] at hc2; rw [hc2] at hcl; exact absurd hcl (by simp)
  | PostConnectError => rw [hcon] at hc2; rw [hc2] at hcl; exact absurd hcl (by simp)
  | Normal => rw [hcon] at hc2; rw [hc2] at hcl; exact absurd hcl (by simp)
  | ConnectError =>
    refine ⟨?_, ?_⟩ <;> split <;> (try simp_all) <;> (try (split <;> simp_all))

/-- Claim C1: the classifier is the pure rule table from the specification —
the Connected check fires first regardless of the connected flag, the
connect-phase error check applies only when not yet connected and is
suppressed for lines containing "waiting recovery", the post-connect error
check applies only when connected, anything else is Normal; including the
three concrete examples given in the specification. -/
theorem claim_C1 :
    (∀ (line : Str) (already_connected : Bool),
      classify_log_line line already_connected = classifySpec line already_connected)
    ∧ classify_log_line "Successfully connected to endpoint 1.2.3.4".toList false
        = LogLineEvent.Connected
    ∧ classify_log_line "Error: failed to bind port".toList false
        = LogLineEvent.ConnectError
    ∧ classify_log_line "waiting recovery: retry in 5s".toList false
        = LogLineEvent.Normal := by
  refine ⟨fun line b => rfl, by decide, by decide, by decide⟩

/-- Claim C2: within a session (no reset), the `connected` flag is monotone
under `push_line` — once true it never reverts — and the `error` /
`post_connect_error` fields latch the first classified line; after two
connect-phase-error lines the latch holds the first line, never the second;
`reset` is the only operation returning the flags to their initial state. -/
theorem claim_C2 :
    (∀ (log : ProcessLog) (line : Str),
      log.connected = true → (log.push_line line).connected = true)
    ∧ (∀ (log : ProcessLog) (ls : List Str),
      log.connected = true → (log.pushAll ls).connected = true)
    ∧ (∀ (log : ProcessLog) (line : Str) (e : Str),
      log.error = some e → (log.push_line line).error = some e)
    ∧ (∀ (log : ProcessLog) (line : Str) (e : Str),
      log.post_connect_error = some e → (log.push_line line).post_connect_error = some e)
    ∧ (∀ log : ProcessLog, log.reset = ProcessLog.new)
    ∧ (∀ (l1 l2 : Str),
      classify_log_line l1 false = LogLineEvent.ConnectError →
      classify_log_line l2 false = LogLineEvent.ConnectError →
      ((ProcessLog.new.push_line l1).push_line l2).error = some l1) := by
  refine ⟨?_, ?_, ?_, ?_, ?_, ?_⟩
  · intro log line h
    exact (push_line_flags log line).1 h
  · intro log ls
    induction ls generalizing log with
    | nil => intro h; simpa [ProcessLog.pushAll] using h
    | cons l t ih =>
      intro h
      have hstep : (ProcessLog.pushAll log (l :: t)) = (log.push_line l).pushAll t := by
        simp [ProcessLog.pushAll]
      rw [hstep]
      exact ih _ ((push_line_flags log l).1 h)
  · intro log line e h
    exact (push_line_flags log line).2.1 e h
  · intro log line e h
    exact (push_line_flags log line).2.2 e h
  · intro log
    rfl
  · intro l1 l2 h1 h2
    have hfirst := push_line_connect_error ProcessLog.new l1 rfl h1
    have herr1 : (ProcessLog.new.push_line l1).error = some l1 := by
      rw [hfirst.2]; rfl
    have hsecond := push_line_connect_error (ProcessLog.new.push_line l1) l2 hfirst.1 h2
    rw [hsecond.2, herr1]
    rfl

/-- Claim C6: the log buffer is bounded at 500 entries — every pushed line is
appended (it is the last entry right after its push), a push never leaves more
than 500 lines, and pushing 600 lines into a fresh log keeps exactly the last
500 in order (the oldest 100 evicted). -/
theorem claim_C6 :
    (∀ (log : ProcessLog) (line : Str), (log.push_line line).lines.getLast? = some line)
    ∧ (∀ (log : ProcessLog) (line : Str),
      log.lines.length ≤ 500 → (log.push_line line).lines.length ≤ 500)
    ∧ (∀ ls : List Str, ls.length = 600 →
      (ProcessLog.new.pushAll ls).lines = ls.drop 100) := by
  refine ⟨?_, ?_, ?_⟩
  · intro log line
    rw [push_line_lines]
    split
    · next hgt =>
      have hne : log.lines ≠ [] := by
        intro hnil
        rw [hnil] at hgt
        simp [MAX_LOG_LINES] at hgt
      obtain ⟨x, xs, hx⟩ := List.exists_cons_of_ne_nil hne
      rw [hx]
      simp
    · simp
  · intro log line h
    rw [push_line_lines]
    split
    · next hgt =>
      have : (log.lines ++ [line]).length = log.lines.length + 1 := by simp
      rw [List.length_tail, this]
      simp only [MAX_LOG_LINES] at *
      omega
    · next hle =>
      simp only [List.length_append, List.length_cons, List.length_nil,
        MAX_LOG_LINES, gt_iff_lt, not_lt] at *
      omega
  · intro ls h
    have := pushAll_lines ls ProcessLog.new (by simp [ProcessLog.new, MAX_LOG_LINES])
    rw [this]
    simp [ProcessLog.new, h, MAX_LOG_LINES]

/-- Witness for claim C2 at concrete inputs. -/
theorem claim_C2_witness :
    ((ProcessLog.new.push_line "error: one".toList).push_line "error: two".toList).error
      = some "error: one".toList :=
  claim_C2.2.2.2.2.2 "error: one".toList "error: two".toList (by decide) (by decide)

/-- Witness for claim C6 at a concrete 600-line input. -/
theorem claim_C6_witness :
    (ProcessLog.new.pushAll (List.replicate 600 "line".toList)).lines
      = (List.replicate 600 "line".toList).drop 100 :=
  claim_C6.2.2 (List.replicate 600 "line".toList) (by simp)

/-- The exit handler always lands in `Disconnected` or an `Error` state —
never `Connected`. Helper shared by several claims. -/
theorem handle_child_exit_not_connected (exit : ChildExit) (st : AppSt) :
    (handle_child_exit exit st).1.connection_state ≠ ConnectionState.Connected := by
  unfold handle_child_exit clear_overrides
  split_ifs <;> (try simp) <;> (try (split <;> simp))

/-- Claim C3: the exit handler first clears any active proxy and DNS
overrides unconditionally (the trace shows one clear per stored backend) and
drops the child handle; a `Disconnecting` state reaps to `Disconnected`;
otherwise exit code 0 gives `Disconnected`, 126 an `Error` whose detail says
the elevation prompt was dismissed, 127 an `Error` whose detail names the
missing client binary, and any other code the generic `Error("Exited
(<code>)")`. -/
theorem claim_C3 (st : AppSt) (exit : ChildExit) :
    (handle_child_exit exit st).1.proxy_overrides = []
    ∧ (handle_child_exit exit st).1.dns_override = none
    ∧ (handle_child_exit exit st).1.child_process = none
    ∧ (handle_child_exit exit st).2
        = st.proxy_overrides.map (fun b => SysEv.proxyClear b.name)
          ++ (match st.dns_override with
              | some d => [SysEv.dnsClear d.name]
              | none => [])
    ∧ (st.connection_state = ConnectionState.Disconnecting →
        (handle_child_exit exit st).1.connection_state = ConnectionState.Disconnected)
    ∧ (st.connection_state ≠ ConnectionState.Disconnecting →
        (exit.code = some 0 →
          (handle_child_exit exit st).1.connection_state = ConnectionState.Disconnected)
        ∧ (exit.code = some 126 →
            (handle_child_exit exit st).1.connection_state
              = ConnectionState.Error ("Exited (126)".toList)
            ∧ (handle_child_exit exit st).1.status_detail
              = "pkexec authentication was dismissed — try again and authenticate when prompted".toList)
        ∧ (exit.code = some 127 →
            (handle_child_exit exit st).1.connection_state
              = ConnectionState.Error ("Exited (127)".toList)
            ∧ (handle_child_exit exit st).1.status_detail
              = "Binary ".toList ++ apos :: st.binary_path
                ++ apos :: " not found. Install TrustTunnel client:\n  https://github.com/TrustTunnel/TrustTunnelClient".toList)
        ∧ (∀ code : Int, exit.code = some code → code ≠ 0 → code ≠ 126 → code ≠ 127 →
            (handle_child_exit exit st).1.connection_state
              = ConnectionState.Error ("Exited (".toList ++ intToStr code ++ ")".toList))) := by
  refine ⟨?_, ?_, ?_, ?_, ?_, ?_⟩
  · unfold handle_child_exit clear_overrides
    split_ifs <;> (try simp) <;> (try (split <;> simp))
  · unfold handle_child_exit clear_overrides
    split_ifs <;> (try simp) <;> (try (split <;> simp))
  · unfold handle_child_exit clear_overrides
    split_ifs <;> (try simp) <;> (try (split <;> simp))
  · unfold handle_child_exit clear_overrides
    split_ifs <;> (try simp) <;> (try (split <;> simp))
  · intro h
    unfold handle_child_exit clear_overrides
    simp [h]
  · intro hne
    refine ⟨?_, ?_, ?_, ?_⟩
    · intro h0
      have hs : exit.success = true := by simp [ChildExit.success, h0]
      unfold handle_child_exit clear_overrides
      simp [hne, hs]
    · intro h126
      have hs : exit.success = false := by simp [ChildExit.success, h126]
      unfold handle_child_exit clear_overrides
      simp [hne, hs, h126]
      all_goals decide
    · intro h127
      have hs : exit.success = false := by simp [ChildExit.success, h127]
      unfold handle_child_exit clear_overrides
      simp [hne, hs, h127]
      all_goals decide
    · intro code hc h0 h126 h127
      have hs : exit.success = false := by simp [ChildExit.success, hc, h0]
      unfold handle_child_exit clear_overrides
      simp [hne, hs, hc, h126, h127]

/-- Witness for claim C3: an exit with code 126 from a connected state with
active overrides. -/
theorem claim_C3_witness :
    (handle_child_exit { code := some 126 } overridesSt).1.proxy_overrides = []
    ∧ (handle_child_exit { code := some 126 } overridesSt).1.connection_state
        = ConnectionState.Error ("Exited (126)".toList) :=
  ⟨(claim_C3 overridesSt { code := some 126 }).1,
    (((claim_C3 overridesSt { code := some 126 }).2.2.2.2.2 (by decide)).2.1 rfl).1⟩

/-- Claim C4: on a reconciliation tick that performs work (tick counter a
multiple of 4 after the wrapping increment), an observed child exit routes
the whole tick through the exit handler — even when the Process Log already
reports `connected == true` — so the controller never reaches `Connected`
for an already-dead child. -/
theorem claim_C4 (st : AppSt) (env : Env) (exit : ChildExit)
    (hwork : ((st.poll_tick + 1) % U32_MOD) % 4 = 0)
    (hchild : st.child_process.isSome = true)
    (hexit : env.tryWait = some exit)
    (_hlog : st.process_log.connected = true) :
    poll_process_state st env
      = handle_child_exit exit { st with poll_tick := (st.poll_tick + 1) % U32_MOD }
    ∧ (poll_process_state st env).1.connection_state ≠ ConnectionState.Connected := by
  have hstep : poll_process_state st env
      = handle_child_exit exit { st with poll_tick := (st.poll_tick + 1) % U32_MOD } := by
    unfold poll_process_state try_reap_child
    cases hc : st.child_process with
    | none => rw [hc] at hchild; simp at hchild
    | some u =>
      simp [hwork, hc, hexit]
  refine ⟨hstep, ?_⟩
  rw [hstep]
  exact handle_child_exit_not_connected exit _

/-- Witness for claim C4: a working tick with a clean exit while the log
already claims the connection is up. -/
theorem claim_C4_witness :
    (poll_process_state pollSt exitEnv).1.connection_state ≠ ConnectionState.Connected :=
  (claim_C4 pollSt exitEnv { code := some 0 } (by decide) rfl rfl rfl).2

/-- Is an event one of the backend clear operations? -/
def isClearEv : SysEv → Bool
  | SysEv.proxyClear _ => true
  | SysEv.dnsClear _ => true
  | _ => false

/-- Claim C5: each clear path (exit handler, `cleanup_child` as used on
quit/drop/connect, and `disconnect` whenever it does not early-return) leaves
`proxy_overrides` empty and `dns_override` unset, and on a state with no
active overrides none of the clear paths invokes any backend clear
operation — so each active override is restored exactly once. -/
theorem claim_C5 (st st2 : AppSt) (exit exit2 : ChildExit) (env : Env) :
    ((handle_child_exit exit st).1.proxy_overrides = []
      ∧ (handle_child_exit exit st).1.dns_override = none)
    ∧ ((cleanup_child st).1.proxy_overrides = []
      ∧ (cleanup_child st).1.dns_override = none)
    ∧ (st.connection_state ≠ ConnectionState.Disconnecting →
        (disconnect st env).1.proxy_overrides = []
        ∧ (disconnect st env).1.dns_override = none)
    ∧ (st2.proxy_overrides = [] → st2.dns_override = none →
        (handle_child_exit exit2 st2).2.all (fun e => !isClearEv e) = true
        ∧ (cleanup_child st2).2.2.all (fun e => !isClearEv e) = true
        ∧ (disconnect st2 env).2.all (fun e => !isClearEv e) = true) := by
  refine ⟨⟨?_, ?_⟩, ⟨?_, ?_⟩, ?_, ?_⟩
  · unfold handle_child_exit clear_overrides
    split_ifs <;> (try simp) <;> (try (split <;> simp))
  · unfold handle_child_exit clear_overrides
    split_ifs <;> (try simp) <;> (try (split <;> simp))
  · unfold cleanup_child clear_overrides
    cases hdns : st.dns_override <;> cases hcp : st.child_process <;> simp [hdns, hcp]
  · unfold cleanup_child clear_overrides
    cases hdns : st.dns_override <;> cases hcp : st.child_process <;> simp [hdns, hcp]
  · intro hne
    unfold disconnect clear_overrides
    simp only [if_neg hne]
    split <;> (try split) <;> simp
  · intro hp hd
    refine ⟨?_, ?_, ?_⟩
    · unfold handle_child_exit clear_overrides
      rw [hp, hd]
      split_ifs <;> (try simp [isClearEv]) <;> (try (split <;> simp [isClearEv]))
    · unfold cleanup_child clear_overrides
      rw [hp, hd]
      cases hcp : st2.child_process <;> simp [hcp, isClearEv]
    · unfold disconnect clear_overrides
      rw [hp, hd]
      split_ifs <;> (try simp [isClearEv]) <;>
        (try (split <;> (try split) <;> simp [isClearEv]))

/-- Witness for claim C5: clearing a state with one proxy and one DNS
override, then observing that a second exit-handler run on the already
cleared base state performs no clear operation. -/
theorem claim_C5_witness :
    ((handle_child_exit { code := some 0 } overridesSt).1.proxy_overrides = []
      ∧ (handle_child_exit { code := some 0 } overridesSt).1.dns_override = none)
    ∧ (handle_child_exit { code := some 0 } baseSt).2.all (fun e => !isClearEv e) = true :=
  ⟨(claim_C5 overridesSt baseSt { code := some 0 } { code := some 0 } noEnv).1,
    ((claim_C5 overridesSt baseSt { code := some 0 } { code := some 0 } noEnv).2.2.2
      rfl rfl).1⟩

/-- Claim C7: `connect` is a no-op (state unchanged, no event — in
particular no spawn) while the state is `Connecting`, `Connected` or
`Disconnecting`; `disconnect` from `Disconnected` (which owns no child, per
the data-model invariant) leaves the connection state `Disconnected`. -/
theorem claim_C7 (st : AppSt) (env : Env) :
    (st.connection_state = ConnectionState.Connecting
        ∨ st.connection_state = ConnectionState.Connected
        ∨ st.connection_state = ConnectionState.Disconnecting →
      connect st env = (st, [])
      ∧ SysEv.spawnChild ∉ (connect st env).2)
    ∧ (st.connection_state = ConnectionState.Disconnected → st.child_process = none →
        (disconnect st env).1.connection_state = ConnectionState.Disconnected) := by
  constructor
  · intro h
    have hact : st.connection_state.is_active = true := by
      rcases h with h | h | h <;> rw [h] <;> rfl
    have heq : connect st env = (st, []) := by
      unfold connect
      rw [if_pos hact]
    exact ⟨heq, by rw [heq]; simp⟩
  · intro h1 h2
    unfold disconnect clear_overrides
    rw [if_neg (by rw [h1]; exact fun hcontra => ConnectionState.noConfusion hcontra)]
    simp [h2]

/-- Witness for claim C7: `connect` while `Connecting` and `disconnect`
while `Disconnected`. -/
theorem claim_C7_witness :
    connect pollSt noEnv = (pollSt, [])
    ∧ (disconnect baseSt noEnv).1.connection_state = ConnectionState.Disconnected :=
  ⟨((claim_C7 pollSt noEnv).1 (Or.inl rfl)).1, (claim_C7 baseSt noEnv).2 rfl rfl⟩

/-- `parse_host_port` on the fixed listen address yields host `127.0.0.1`
and port 1080. -/
theorem parse_host_port_listen :
    parse_host_port PROXY_LISTEN_ADDRESS = ("127.0.0.1".toList, 1080) := by decide

/-- Claim C9: on the transition into `Connected` in system-proxy mode, `set`
is applied to every detected proxy backend (one `proxySet` per backend, with
the parsed listen host/port); individual failures do not prevent the
`Connected` transition and every backend's detail — failures included — is
concatenated with `"; "` into the surfaced status string; and the stored
override list is exactly the detected backends, so a later clear path (here
the exit handler) clears exactly those backends, never guessed ones. -/
theorem claim_C9 (st : AppSt) (env : Env) (exit : ChildExit)
    (hmode : st.tunnel_mode = TunnelMode.SystemProxy)
    (hempty : st.proxy_overrides = [])
    (hdns : st.dns_override = none) :
    (transition_to_connected st env).1.connection_state = ConnectionState.Connected
    ∧ (transition_to_connected st env).1.proxy_overrides = env.detectProxy
    ∧ (transition_to_connected st env).2
        = env.detectProxy.map (fun b => SysEv.proxySet b.name)
    ∧ (env.detectProxy ≠ [] →
        (transition_to_connected st env).1.status_detail
          = "System proxy active — all apps route through VPN\nSOCKS5 on 127.0.0.1:1080".toList
            ++ (if (List.intercalate ("; ".toList)
                    (env.detectProxy.map
                      (fun b => backendDetail b ("127.0.0.1".toList) 1080))).isEmpty
                then []
                else '\n' :: List.intercalate ("; ".toList)
                    (env.detectProxy.map (fun b => backendDetail b ("127.0.0.1".toList) 1080)))
            ++ "\nProxy will be restored on disconnect or quit".toList)
    ∧ (handle_child_exit exit (transition_to_connected st env).1).2
        = env.detectProxy.map (fun b => SysEv.proxyClear b.name) := by
  have hpo : (transition_to_connected st env).1.proxy_overrides = env.detectProxy := by
    unfold transition_to_connected set_all
    simp [hmode, hempty, hdns, TunnelMode.sets_system_proxy, TunnelMode.is_tun]
  have hdo : (transition_to_connected st env).1.dns_override = none := by
    unfold transition_to_connected set_all
    simp [hmode, hempty, hdns, TunnelMode.sets_system_proxy, TunnelMode.is_tun]
  refine ⟨?_, hpo, ?_, ?_, ?_⟩
  · unfold transition_to_connected set_all
    simp [hmode, hempty, hdns, TunnelMode.sets_system_proxy, TunnelMode.is_tun]
  · unfold transition_to_connected set_all
    simp [hmode, hempty, hdns, TunnelMode.sets_system_proxy, TunnelMode.is_tun]
  · intro hdp
    rcases hdp2 : env.detectProxy with _ | ⟨b, bs⟩
    · exact absurd hdp2 hdp
    · unfold transition_to_connected set_all
      rw [parse_host_port_listen]
      simp [hmode, hempty, hdns, TunnelMode.sets_system_proxy, TunnelMode.is_tun, hdp2]
  · unfold handle_child_exit clear_overrides
    split_ifs <;> (try simp [hpo, hdo]) <;> (try (split <;> simp [hpo, hdo]))

/-- Witness for claim C9: one detected backend whose `set` succeeds. -/
theorem claim_C9_witness :
    (transition_to_connected baseSt proxyEnv).1.connection_state = ConnectionState.Connected
    ∧ (transition_to_connected baseSt proxyEnv).1.proxy_overrides = proxyEnv.detectProxy :=
  ⟨(claim_C9 baseSt proxyEnv { code := some 0 } rfl rfl rfl).1,
    (claim_C9 baseSt proxyEnv { code := some 0 } rfl rfl rfl).2.1⟩

/-- A true prefix check survives appending to the haystack. -/
theorem prefAt_append (p x m : Str) (h : prefAt p x = true) : prefAt p (x ++ m) = true := by
  induction p generalizing x with
  | nil => rfl
  | cons a ps ih =>
    cases x with
    | nil => simp [prefAt] at h
    | cons b xs =>
      simp only [List.cons_append, prefAt, Bool.and_eq_true, beq_iff_eq] at h ⊢
      exact ⟨h.1, ih xs h.2⟩

/-- `trim_start` distributes over an append whose left part does not trim to
nothing. -/
theorem trimStart_append_of (k m : Str) (h : trimStart k ≠ []) :
    trimStart (k ++ m) = trimStart k ++ m := by
  unfold trimStart at h ⊢
  have hne : (k.dropWhile Char.isWhitespace).isEmpty = false := by
    cases hc : k.dropWhile Char.isWhitespace with
    | nil => exact absurd hc h
    | cons a l => rfl
  rw [List.dropWhile_append, hne]
  simp

/-- The first `=` of `k ++ '=' :: rest` sits right after `k` when `k`
contains no `=`. -/
theorem findEqIdx_append (k rest : Str) (h : '=' ∉ k) :
    findEqIdx (k ++ '=' :: rest) = some k.length := by
  induction k with
  | nil => simp [findEqIdx]
  | cons c t ih =>
    rw [List.mem_cons] at h
    push_neg at h
    have hc : ¬ (c = '=') := fun hh => h.1 hh.symm
    simp [findEqIdx, hc, ih h.2]

/-- Dropping the left part of an append plus one more element. -/
theorem drop_len_succ_append (k : Str) (c : Char) (rest : Str) :
    (k ++ c :: rest).drop (k.length + 1) = rest := by
  induction k with
  | nil => simp
  | cons a t ih => simpa using ih

/-- Trimming the `= "<value>"` remainder of a password line keeps exactly the
quoted value. -/
theorem trim_quoted (v : Str) :
    trimStr (' ' :: '"' :: (v ++ ['"'])) = '"' :: (v ++ ['"']) := by
  have h1 : Char.isWhitespace ' ' = true := by decide
  have h2 : Char.isWhitespace '"' = false := by decide
  unfold trimStr trimStart trimEnd
  simp [List.dropWhile_cons, h1, h2]


/-- `str::lines` followed by `join("\n")` is the identity on documents whose
lines contain no newline, end in no carriage return, and whose last line is
nonempty. -/
theorem rustLines_intercalate (ls : List Str)
    (hlines : ∀ l ∈ ls, '\n' ∉ l ∧ l.getLast? ≠ some '\r')
    (hlast : ls.getLast? ≠ some ([] : Str)) :
    rustLines (List.intercalate ['\n'] ls) = ls := by
  cases ls with
  | nil => rfl
  | cons a t =>
    have hsplit : (List.intercalate ['\n'] (a :: t)).splitOn '\n' = a :: t :=
      List.splitOn_intercalate (a :: t) '\n' (fun l hl => (hlines l hl).1) (by simp)
    unfold rustLines dropFinalEmpty
    rw [hsplit, if_neg hlast]
    have hid : ∀ l ∈ a :: t,
        (if l.getLast? = some '\r' then l.dropLast else l) = id l := by
      intro l hl
      simp [(hlines l hl).2]
    rw [List.map_congr_left hid, List.map_id]

/-- Claim C10: the diagnostic dump of a generated configuration document
redacts passwords — the document is processed line by line; a line whose key
starts (after indentation) with `password` and carries a quoted value gets
the value replaced by asterisks of exactly the value's length, and every
line whose key is not a password is emitted unchanged. -/
theorem claim_C10 (docLines : List Str) (k v : Str)
    (hlines : ∀ l ∈ docLines, '\n' ∉ l ∧ l.getLast? ≠ some '\r')
    (hlast : docLines.getLast? ≠ some ([] : Str))
    (hkey : prefAt "password".toList (trimStart k) = true)
    (heqk : '=' ∉ k) :
    redact_password_in_toml (List.intercalate ['\n'] docLines)
      = List.intercalate ['\n'] (docLines.map redactLine)
    ∧ (∀ line : Str, prefAt "password".toList (trimStart line) = false →
        redactLine line = line)
    ∧ redactLine (k ++ ('=' :: ' ' :: '"' :: (v ++ ['"'])))
      = k ++ ('=' :: ' ' :: '"' :: (List.replicate v.length '*' ++ ['"'])) := by
  refine ⟨?_, ?_, ?_⟩
  · unfold redact_password_in_toml
    rw [rustLines_intercalate docLines hlines hlast]
  · intro line h
    unfold redactLine
    rw [if_neg (by simpa using h)]
  · have hkne : trimStart k ≠ [] := by
      intro hnil
      rw [hnil] at hkey
      exact absurd hkey (by decide)
    have hpref : prefAt "password".toList
        (trimStart (k ++ ('=' :: ' ' :: '"' :: (v ++ ['"'])))) = true := by
      rw [trimStart_append_of k _ hkne]
      exact prefAt_append _ _ _ hkey
    have hfind := findEqIdx_append k (' ' :: '"' :: (v ++ ['"'])) heqk
    unfold redactLine
    rw [if_pos hpref, hfind]
    simp only []
    rw [drop_len_succ_append, trim_quoted]
    simp [List.take_left]

/-- Witness for claim C10 at a concrete two-line document. -/
theorem claim_C10_witness :
    redact_password_in_toml
        (List.intercalate ['\n']
          ["hostname = \"h\"".toList,
            "password ".toList ++ ('=' :: ' ' :: '"' :: ("secret".toList ++ ['"']))])
      = List.intercalate ['\n']
          (["hostname = \"h\"".toList,
            "password ".toList
              ++ ('=' :: ' ' :: '"' :: ("secret".toList ++ ['"']))].map redactLine)
    ∧ redactLine ("password ".toList ++ ('=' :: ' ' :: '"' :: ("secret".toList ++ ['"'])))
      = "password ".toList
          ++ ('=' :: ' ' :: '"' :: (List.replicate ("secret".toList).length '*' ++ ['"'])) :=
  ⟨(claim_C10
      ["hostname = \"h\"".toList,
        "password ".toList ++ ('=' :: ' ' :: '"' :: ("secret".toList ++ ['"']))]
      ("password ".toList) ("secret".toList)
      (by decide) (by decide) (by decide) (by decide)).1,
    (claim_C10
      ["hostname = \"h\"".toList,
        "password ".toList ++ ('=' :: ' ' :: '"' :: ("secret".toList ++ ['"']))]
      ("password ".toList) ("secret".toList)
      (by decide) (by decide) (by decide) (by decide)).2.2⟩

/-- Counterexample to claim C8 as stated: the resolvconf DNS backend
performs no TUN-interface discovery — in an environment with no TUN
interface at all (and a working `resolvconf` binary) its `set` succeeds and
issues a resolver-configuration command under the fixed name
`tun-trusttunnel`, instead of failing without mutation. -/
theorem claim_C8_counterexample :
    dnsEnvNoTun.tunInterface = none
    ∧ (ResolvconfDns.set dnsEnvNoTun []).1
        = Except.ok ("DNS configured via resolvconf (1.1.1.1, 1.0.0.1)".toList)
    ∧ (ResolvconfDns.set dnsEnvNoTun []).2
        = [DnsCmd.resolvconfAdd RESOLVCONF_INTERFACE] := by
  refine ⟨rfl, ?_, by decide⟩
  unfold ResolvconfDns.set dnsEnvNoTun
  rfl

/-- Claim C8 (amended): only the systemd-resolved backend scopes the DNS
override by a discovered TUN interface, and when none can be found its `set`
returns an error without issuing any resolver-configuration command and
without recording an interface handle; the resolvconf and PowerShell
backends do not perform interface discovery — their behaviour is entirely
independent of whether a TUN interface exists. -/
theorem claim_C8 (d : ResolvedDns) (env : DnsEnv) (upstreams : List Str)
    (h : env.tunInterface = none) :
    ResolvedDns.set d env upstreams
      = (d, Except.error ("DNS via systemd-resolved: no TUN interface found".toList), [])
    ∧ (∀ i, ResolvconfDns.set { env with tunInterface := i } upstreams
        = ResolvconfDns.set env upstreams)
    ∧ (∀ i, PowerShellDns.set { env with tunInterface := i } upstreams
        = PowerShellDns.set env upstreams) := by
  refine ⟨?_, ?_, ?_⟩
  · unfold ResolvedDns.set
    rw [h]
  · intro i
    rfl
  · intro i
    rfl

/-- Witness for claim C8 (amended) in the concrete no-TUN environment. -/
theorem claim_C8_witness :
    ResolvedDns.set ResolvedDns.new dnsEnvNoTun []
      = (ResolvedDns.new,
          Except.error ("DNS via systemd-resolved: no TUN interface found".toList), []) :=
  (claim_C8 ResolvedDns.new dnsEnvNoTun [] rfl).1
